import Mathlib

/-!
Verification of the farm scoring logic of `app.py` (AgriLifecycle Pro).

Part 1 embeds, directly from the source, the computations the dashboard
performs on its collected inputs: the seed catalog `SEED_DATA`, the market
price lookup, the yield prediction (`yield_per_acre`, `total_yield`), the
projected revenue, and the ESG sustainability score.

Part 2 models, from the specification, the engine operations that are
absent from the source file (crop ranking over a catalog with economics,
the yield-adjustment function with its diagnostics): each such definition
carries a doc comment beginning `Modelled from the spec:`.

Real numbers in the source are embedded as rationals; every literal that
occurs (15.0, 2.5, 2000, 65, the seed prices) is exactly representable.
-/

/-- The water level selected in the sidebar slider (`water_lvl`,
options `["Dry", "Low", "Full"]`). -/
inductive WaterLevel
  | dry
  | low
  | full
deriving DecidableEq, Repr

/-- The seed variety chosen on page 2 (`selected_seed`, the keys of
`SEED_DATA`). -/
inductive Seed
  | hybridRice
  | organicWheat
  | premiumCotton
  | goldenMaize
  | soybeanElite
deriving DecidableEq, Repr

/-- The seed condition radio on page 2 (`seed_quality`,
options `["Certified Premium", "Standard", "Damaged/Discolored"]`). -/
inductive SeedQuality
  | certifiedPremium
  | standard
  | damagedDiscolored
deriving DecidableEq, Repr

/-- The irrigation system selectbox on page 2 (`irrigation`,
options `["Drip", "Sprinkler", "Manual"]`). -/
inductive Irrigation
  | drip
  | sprinkler
  | manual
deriving DecidableEq, Repr

/-- The fertilizer approach radio on page 2 (`fert_type`,
options `["100% Organic", "Balanced NPK", "Chemical Intense"]`). -/
inductive FertType
  | organic100
  | balancedNPK
  | chemicalIntense
deriving DecidableEq, Repr

/-- The soil testing status selectbox on page 1 (`soil_test`,
options `["Verified", "Pending", "Critical"]`). -/
inductive SoilTest
  | verified
  | pending
  | critical
deriving DecidableEq, Repr

/-- One entry of the `SEED_DATA` dictionary: a market price per quintal
and a description string. -/
structure SeedInfo where
  price : ℚ
  info : String
deriving DecidableEq, Repr

/-- The `SEED_DATA` dictionary of `app.py` (lines 56-62), keyed by the
seed variety. -/
def SEED_DATA : Seed → SeedInfo
  | .hybridRice => { price := 2200, info := "High yield, medium water requirement." }
  | .organicWheat => { price := 2800, info := "Premium market value, eco-friendly." }
  | .premiumCotton => { price := 6500, info := "Industrial demand, high pesticide monitoring needed." }
  | .goldenMaize => { price := 1900, info := "Animal feed focus, fast growth." }
  | .soybeanElite => { price := 4500, info := "High protein, nitrogen-fixing crop." }

/-- The input widgets of `app.py` that feed its computations: the sidebar
parameters (lines 79-81) and the per-page form controls (lines 107, 127-128,
143-144), gathered into one record. -/
structure Inputs where
  acres : ℚ
  water_lvl : WaterLevel
  labor_count : ℕ
  soil_test : SoilTest
  selected_seed : Seed
  seed_quality : SeedQuality
  irrigation : Irrigation
  fert_type : FertType
deriving DecidableEq, Repr

/-- The market price displayed on page 2 (line 135):
`price = SEED_DATA[selected_seed]['price']`. -/
def price (p : Inputs) : ℚ :=
  (SEED_DATA p.selected_seed).price

/-- The yield computation of page 3 (lines 154-155): a base of 15.0,
plus 2.5 when the water level is "Full". No other input is read; the
comment `# Logic for seed damage` on line 156 is followed by no code. -/
def yield_per_acre (p : Inputs) : ℚ :=
  15 + (if p.water_lvl = .full then 5/2 else 0)

/-- The total estimated harvest of page 3 (line 159):
`total_yield = yield_per_acre * acres`. -/
def total_yield (p : Inputs) : ℚ :=
  yield_per_acre p * p.acres

/-- The projected revenue displayed on page 3 (line 165):
`total_yield * 2000`, with the per-quintal rate hard-coded as 2000. -/
def projected_revenue (p : Inputs) : ℚ :=
  total_yield p * 2000

/-- The ESG sustainability score of page 4 (line 203): the literal 65,
bound regardless of any input (the comment on line 202 notwithstanding). -/
def score (_ : Inputs) : ℕ := 65

/-- The tuple of numeric outputs of the page-3 scoring path: predicted
yield per acre, total harvest, and projected revenue. -/
def scoringRun (p : Inputs) : ℚ × ℚ × ℚ :=
  (yield_per_acre p, total_yield p, projected_revenue p)

/-!
### Spec-modelled engine operations

The crop-ranking engine, the per-crop economics, and the yield-adjustment
function with its `NegativeYield` diagnostic do not appear in `app.py`:
the specification documents them from the repository's other variants.
The definitions below model them from the spec (sections 3, 4.1, 4.2, 7).
-/

/-- Modelled from the spec: the enumerated soil types of the
`FarmProfile` data model (section 3); absent from `app.py`, which collects
no soil-type input. -/
inductive SoilType
  | alluvial
  | black
  | red
  | laterite
  | clayey
  | sandy
  | clay
deriving DecidableEq, Repr

/-- Modelled from the spec: the `FarmProfile` per-request input record of
section 3; absent from `app.py` as a single record (the dashboard scatters
a subset of these fields across widgets). -/
structure FarmProfile where
  areaAcres : ℚ
  soilType : SoilType
  soilPh : ℚ
  waterAvailability : WaterLevel
  irrigationMethod : Irrigation
  usesOrganicManure : Bool
  usesChemicalFertilizer : Bool
  seedQuality : SeedQuality
  soilTestVerified : Bool
  pestObserved : Bool
  diseaseObserved : Bool
deriving DecidableEq, Repr

/-- Modelled from the spec: the `CropRecord` static reference entry of
section 3 (market price, yield, cost, editorial suitability, preferred
soils); absent from `app.py`, whose `SEED_DATA` holds only a price and a
description. -/
structure CropRecord where
  name : String
  marketPricePerQuintal : ℚ
  yieldPerAcre : ℚ
  costPerAcre : ℚ
  baseSuitability : ℚ
  preferredSoils : List SoilType
deriving DecidableEq, Repr

/-- Modelled from the spec: the error taxonomy of section 7 that the
engine surfaces to callers (`EmptyCatalog`, `NegativeYield`); absent from
`app.py`, which raises no typed errors. -/
inductive EngineError
  | emptyCatalog
  | negativeYield
deriving DecidableEq, Repr

/-- Modelled from the spec: the fixed additive adjustment deltas of the
yield prediction of section 4.2. The spec fixes their roles but leaves
their magnitudes tunable, so they are a parameter record. -/
structure AdjustConsts where
  soilTestBonus : ℚ
  irrigationBonus : ℚ
  damagedSeedPenalty : ℚ
  pestDiseasePenalty : ℚ
deriving DecidableEq, Repr

/-- Modelled from the spec: the raw adjusted sum of the yield prediction
of section 4.2 — the baseline plus a soil-test bonus and an efficient
(drip) irrigation bonus, minus a damaged-seed penalty, minus a single
pest-or-disease penalty applied once when either flag is set. -/
def predictYieldSum (k : AdjustConsts) (p : FarmProfile) (base : ℚ) : ℚ :=
  base
    + (if p.soilTestVerified then k.soilTestBonus else 0)
    + (if p.irrigationMethod = .drip then k.irrigationBonus else 0)
    - (if p.seedQuality = .damagedDiscolored then k.damagedSeedPenalty else 0)
    - (if p.pestObserved || p.diseaseObserved then k.pestDiseasePenalty else 0)

/-- Modelled from the spec: `predictYield` of section 4.2 — the adjusted
sum when it is nonnegative, and the `NegativeYield` diagnostic (section 7)
surfaced to the caller when the adjustments drive the sum below zero,
never a silent clamp to zero. -/
def predictYield (k : AdjustConsts) (p : FarmProfile) (base : ℚ) :
    Except EngineError ℚ :=
  if predictYieldSum k p base < 0 then .error .negativeYield
  else .ok (predictYieldSum k p base)

/-- Modelled from the spec: `grossRevenue` of the per-crop economics of
section 4.1 step 2. -/
def grossRevenue (p : FarmProfile) (c : CropRecord) : ℚ :=
  c.marketPricePerQuintal * c.yieldPerAcre * p.areaAcres

/-- Modelled from the spec: `totalCost` of the per-crop economics of
section 4.1 step 2. -/
def totalCost (p : FarmProfile) (c : CropRecord) : ℚ :=
  c.costPerAcre * p.areaAcres

/-- Modelled from the spec: `netProfit` of the per-crop economics of
section 4.1 step 2. -/
def netProfit (p : FarmProfile) (c : CropRecord) : ℚ :=
  grossRevenue p c - totalCost p c

/-- Modelled from the spec: the fixed suitability discount applied to a
crop whose preferred-soil set misses the profile's soil (section 4.1
step 1); the spec calls the magnitude a tunable constant. -/
def soilDiscount : ℚ := 20

/-- Modelled from the spec: the fixed suitability bonus for drip
irrigation (section 4.1 step 1); magnitude tunable. -/
def suitIrrigationBonus : ℚ := 5

/-- Modelled from the spec: the fixed suitability bonus for a verified
soil test (section 4.1 step 1); magnitude tunable. -/
def suitSoilTestBonus : ℚ := 4

/-- Modelled from the spec: the fixed suitability penalty for damaged
seed (section 4.1 step 1); magnitude tunable. -/
def suitDamagedSeedPenalty : ℚ := 6

/-- Modelled from the spec: the fixed suitability penalty applied once
when pest or disease is observed (section 4.1 step 1); magnitude
tunable. -/
def suitPestPenalty : ℚ := 8

/-- Modelled from the spec: the effective suitability score of section
4.1 step 1 — `baseSuitability`, discounted when the profile's soil is
outside the crop's preferred set, with the additive input-quality
adjustments summed. -/
def effSuitability (p : FarmProfile) (c : CropRecord) : ℚ :=
  c.baseSuitability
    - (if p.soilType ∈ c.preferredSoils then 0 else soilDiscount)
    + (if p.irrigationMethod = .drip then suitIrrigationBonus else 0)
    + (if p.soilTestVerified then suitSoilTestBonus else 0)
    - (if p.seedQuality = .damagedDiscolored then suitDamagedSeedPenalty else 0)
    - (if p.pestObserved || p.diseaseObserved then suitPestPenalty else 0)

/-- Modelled from the spec: one entry of the ranked sequence of section 3
(crop, suitability, net profit, gross revenue), extended with the crop's
catalog insertion index so that the stable tie-break of section 4.1 step 3
is explicit. -/
structure RankedCrop where
  crop : CropRecord
  suitability : ℚ
  netProfit : ℚ
  grossRevenue : ℚ
  idx : ℕ
deriving DecidableEq, Repr

/-- Modelled from the spec: scoring one catalog entry at its insertion
index for a profile. -/
def scoreCrop (p : FarmProfile) (i : ℕ) (c : CropRecord) : RankedCrop :=
  { crop := c
    suitability := effSuitability p c
    netProfit := netProfit p c
    grossRevenue := grossRevenue p c
    idx := i }

/-- Modelled from the spec: the ranking order of section 4.1 step 3 —
descending effective suitability, ties broken by descending net profit,
remaining ties broken by catalog insertion order. -/
def rankLE (a b : RankedCrop) : Prop :=
  b.suitability < a.suitability ∨
    (a.suitability = b.suitability ∧
      (b.netProfit < a.netProfit ∨
        (a.netProfit = b.netProfit ∧ a.idx ≤ b.idx)))

instance (a b : RankedCrop) : Decidable (rankLE a b) := by
  unfold rankLE
  infer_instance

instance : IsTotal RankedCrop rankLE := by
  constructor
  intro a b
  rcases lt_trichotomy a.suitability b.suitability with hs | hs | hs
  · exact Or.inr (Or.inl hs)
  · rcases lt_trichotomy a.netProfit b.netProfit with hn | hn | hn
    · exact Or.inr (Or.inr ⟨hs.symm, Or.inl hn⟩)
    · rcases Nat.le_total a.idx b.idx with hi | hi
      · exact Or.inl (Or.inr ⟨hs, Or.inr ⟨hn, hi⟩⟩)
      · exact Or.inr (Or.inr ⟨hs.symm, Or.inr ⟨hn.symm, hi⟩⟩)
    · exact Or.inl (Or.inr ⟨hs, Or.inl hn⟩)
  · exact Or.inl (Or.inl hs)

instance : IsTrans RankedCrop rankLE := by
  constructor
  intro a b c hab hbc
  rcases hab with hab | ⟨hsab, hab⟩
  · rcases hbc with hbc | ⟨hsbc, _⟩
    · exact Or.inl (hbc.trans hab)
    · exact Or.inl (hsbc ▸ hab)
  · rcases hbc with hbc | ⟨hsbc, hbc⟩
    · exact Or.inl (hsab ▸ hbc)
    · refine Or.inr ⟨hsab.trans hsbc, ?_⟩
      rcases hab with hab | ⟨hnab, hab⟩
      · rcases hbc with hbc | ⟨hnbc, _⟩
        · exact Or.inl (hbc.trans hab)
        · exact Or.inl (hnbc ▸ hab)
      · rcases hbc with hbc | ⟨hnbc, hbc⟩
        · exact Or.inl (hnab ▸ hbc)
        · exact Or.inr ⟨hnab.trans hnbc, hab.trans hbc⟩

/-- Modelled from the spec: `rankCrops` of section 4.1 — fails with
`EmptyCatalog` on an empty catalog (section 4.1 step 4, section 7),
otherwise scores every catalog entry at its insertion index and sorts the
scored entries stably by `rankLE`. -/
def rankCrops (p : FarmProfile) :
    List CropRecord → Except EngineError (List RankedCrop)
  | [] => .error .emptyCatalog
  | c :: cs =>
      .ok (List.insertionSort rankLE
        (((c :: cs).enum).map fun ic => scoreCrop p ic.1 ic.2))

/-- Modelled from the spec: `recommendedCrop` of section 4.1 step 4 — the
head of the ranked sequence, defined only on a successful ranking of a
non-empty catalog. -/
def recommendedCrop (p : FarmProfile) (catalog : List CropRecord) :
    Option RankedCrop :=
  match rankCrops p catalog with
  | .error _ => none
  | .ok ranked => ranked.head?

/-!
### Theorems
-/

/-- C9: the displayed ESG sustainability score is independent of every
user input — any two input configurations produce the identical score
value 65. -/
theorem esg_score_constant_65 (a b : Inputs) :
    score a = 65 ∧ score a = score b :=
  ⟨rfl, rfl⟩

/-- C10: the predicted yield per acre takes exactly one of two values,
determined solely by the water level — 35/2 (= 17.5) when the water level
is Full and 15 otherwise — and is always strictly positive. -/
theorem yield_two_values (p : Inputs) :
    yield_per_acre p = (if p.water_lvl = .full then 35/2 else 15) ∧
      0 < yield_per_acre p := by
  unfold yield_per_acre
  constructor
  · split <;> norm_num
  · split <;> norm_num

/-- C2 (failing input): the code evaluates the ESG score to 65 for a
chemical-intense, manual-irrigation configuration and to the same 65 for
a fully organic, drip-irrigated one — no bonus is added and no penalty is
subtracted, contradicting the specified baseline-plus-adjustments-then-
clamp computation (and the source's own comment announcing dependence on
labor and water). -/
theorem esg_score_ignores_practices :
    score ⟨10, .full, 15, .verified, .hybridRice, .standard, .manual, .chemicalIntense⟩ = 65 ∧
      score ⟨10, .full, 15, .verified, .hybridRice, .standard, .drip, .organic100⟩ = 65 :=
  ⟨rfl, rfl⟩

/-- C3 (failing input): with the water level at Low, the code evaluates
the predicted yield to the same 15 whether the soil test is pending or
verified, whether irrigation is manual or drip, and whether the seed is
standard or damaged — none of the specified additive adjustments exists
in the code (its `Logic for seed damage` comment is followed by no
implementation). -/
theorem yield_adjustments_absent :
    yield_per_acre ⟨10, .low, 15, .pending, .hybridRice, .standard, .manual, .balancedNPK⟩ = 15 ∧
      yield_per_acre ⟨10, .low, 15, .verified, .hybridRice, .standard, .drip, .balancedNPK⟩ = 15 ∧
      yield_per_acre ⟨10, .low, 15, .pending, .hybridRice, .damagedDiscolored, .manual, .balancedNPK⟩ = 15 := by
  refine ⟨?_, ?_, ?_⟩ <;> norm_num [yield_per_acre] <;> decide

/-- C1 (counterexample): with Premium Cotton selected (catalog price
6500), 10 acres and Full water, the displayed projected revenue is
350000 = 2000 × 175, while the selected seed's catalog price times the
predicted total yield is 6500 × 175 = 1137500 — the displayed revenue
does not equal the catalog price times the total yield. -/
theorem revenue_not_catalog_price :
    projected_revenue ⟨10, .full, 15, .verified, .premiumCotton, .standard, .drip, .organic100⟩ = 350000 ∧
      price ⟨10, .full, 15, .verified, .premiumCotton, .standard, .drip, .organic100⟩ *
        total_yield ⟨10, .full, 15, .verified, .premiumCotton, .standard, .drip, .organic100⟩ = 1137500 ∧
      projected_revenue ⟨10, .full, 15, .verified, .premiumCotton, .standard, .drip, .organic100⟩ ≠
        price ⟨10, .full, 15, .verified, .premiumCotton, .standard, .drip, .organic100⟩ *
          total_yield ⟨10, .full, 15, .verified, .premiumCotton, .standard, .drip, .organic100⟩ := by
  refine ⟨?_, ?_, ?_⟩ <;>
    norm_num [projected_revenue, total_yield, yield_per_acre, price, SEED_DATA]

/-- C1 (amended): the displayed projected revenue equals a flat rate of
2000 per quintal times the predicted total yield, independent of which
seed is selected — the selected seed's catalog market price never enters
the revenue computation. -/
theorem revenue_flat_rate (p : Inputs) :
    projected_revenue p = 2000 * total_yield p ∧
      ∀ s : Seed, projected_revenue { p with selected_seed := s } = projected_revenue p := by
  constructor
  · unfold projected_revenue
    ring
  · intro s
    simp [projected_revenue, total_yield, yield_per_acre]

/-- C8: the scoring path is deterministic — two runs on identical inputs
produce identical predicted yield, total harvest and revenue, and the
(spec-modelled) ranking produces identical output on identical profile
and catalog; the embedded scoring path is a pure function with no source
of randomness. -/
theorem scoring_deterministic (p q : Inputs) (fp fq : FarmProfile)
    (cat cat2 : List CropRecord) (hpq : p = q) (hf : fp = fq) (hc : cat = cat2) :
    scoringRun p = scoringRun q ∧ rankCrops fp cat = rankCrops fq cat2 := by
  subst hpq
  subst hf
  subst hc
  exact ⟨rfl, rfl⟩

/-- Witness for C8 at a concrete input, catalog and profile. -/
theorem scoring_deterministic_witness :
    scoringRun ⟨10, .full, 15, .verified, .hybridRice, .standard, .drip, .organic100⟩ =
        scoringRun ⟨10, .full, 15, .verified, .hybridRice, .standard, .drip, .organic100⟩ ∧
      rankCrops ⟨1, .alluvial, 7, .full, .manual, false, false, .standard, false, false, false⟩ [] =
        rankCrops ⟨1, .alluvial, 7, .full, .manual, false, false, .standard, false, false, false⟩ [] :=
  scoring_deterministic _ _ _ _ _ _ rfl rfl rfl

/-- C6: the pest/disease yield penalty is applied at most once — for any
adjustment constants, profile and baseline, a profile with both
`pestObserved` and `diseaseObserved` set predicts exactly the same yield
as the same profile with only one of the two flags set. -/
theorem pest_or_disease_single_penalty (k : AdjustConsts) (p : FarmProfile) (base : ℚ) :
    predictYield k { p with pestObserved := true, diseaseObserved := true } base =
        predictYield k { p with pestObserved := true, diseaseObserved := false } base ∧
      predictYield k { p with pestObserved := true, diseaseObserved := true } base =
        predictYield k { p with pestObserved := false, diseaseObserved := true } base := by
  constructor <;> simp [predictYield, predictYieldSum]

/-- C7: when the adjusted sum of the yield prediction is negative, the
prediction surfaces the `NegativeYield` diagnostic instead of a value,
and every successful result equals the unclamped adjusted sum — the
engine never floors a negative predicted yield to zero. -/
theorem negative_yield_surfaced (k : AdjustConsts) (p : FarmProfile) (base : ℚ) :
    (predictYieldSum k p base < 0 →
        predictYield k p base = .error .negativeYield) ∧
      ∀ v : ℚ, predictYield k p base = .ok v → v = predictYieldSum k p base := by
  constructor
  · intro h
    simp [predictYield, h]
  · intro v hv
    unfold predictYield at hv
    split at hv
    · exact absurd hv (by simp)
    · exact (Except.ok.injEq _ _ ▸ hv).symm

/-- Witness for C7: with a pest penalty of 100, an observed pest and a
baseline of 15, the adjusted sum is −85 and the diagnostic is surfaced. -/
theorem negative_yield_surfaced_witness :
    predictYieldSum ⟨0, 0, 0, 100⟩
        ⟨1, .alluvial, 7, .full, .manual, false, false, .standard, false, true, false⟩ 15 < 0 ∧
      predictYield ⟨0, 0, 0, 100⟩
        ⟨1, .alluvial, 7, .full, .manual, false, false, .standard, false, true, false⟩ 15 =
        .error .negativeYield :=
  ⟨by norm_num [predictYieldSum],
    (negative_yield_surfaced ⟨0, 0, 0, 100⟩
      ⟨1, .alluvial, 7, .full, .manual, false, false, .standard, false, true, false⟩ 15).1
      (by norm_num [predictYieldSum])⟩

/-- C4: every successful ranking is ordered so that for any crop entry
appearing before another, either its suitability is strictly greater, or
the suitabilities are equal and its net profit is at least the other's;
remaining full ties are broken by catalog insertion order (stable sort). -/
theorem ranking_order (p : FarmProfile) (catalog : List CropRecord)
    (res : List RankedCrop) (h : rankCrops p catalog = .ok res) :
    res.Pairwise (fun a b => b.suitability < a.suitability ∨
        (a.suitability = b.suitability ∧ b.netProfit ≤ a.netProfit)) ∧
      res.Pairwise (fun a b => a.suitability = b.suitability →
        a.netProfit = b.netProfit → a.idx ≤ b.idx) := by
  cases catalog with
  | nil => simp [rankCrops] at h
  | cons c cs =>
      simp only [rankCrops, Except.ok.injEq] at h
      subst h
      have hs := List.sorted_insertionSort rankLE
        (((c :: cs).enum).map fun ic => scoreCrop p ic.1 ic.2)
      constructor
      · refine List.Pairwise.imp ?_ hs
        intro a b hab
        rcases hab with hab | ⟨hsuit, hab⟩
        · exact Or.inl hab
        · refine Or.inr ⟨hsuit, ?_⟩
          rcases hab with hab | ⟨hnp, _⟩
          · exact le_of_lt hab
          · exact le_of_eq hnp.symm
      · refine List.Pairwise.imp ?_ hs
        intro a b hab hsuit hnp
        rcases hab with hab | ⟨_, hab⟩
        · exact absurd hab (by rw [hsuit]; exact lt_irrefl _)
        · rcases hab with hab | ⟨_, hidx⟩
          · exact absurd hab (by rw [hnp]; exact lt_irrefl _)
          · exact hidx

/-- Witness for C4: a two-crop catalog ranked for a concrete profile,
with both pairwise ordering properties checked on the concrete result. -/
theorem ranking_order_witness :
    rankCrops ⟨1, .alluvial, 7, .full, .manual, false, false, .standard, false, false, false⟩
        [⟨"A", 10, 2, 5, 90, [.alluvial]⟩, ⟨"B", 10, 1, 5, 50, []⟩] =
      Except.ok [⟨⟨"A", 10, 2, 5, 90, [.alluvial]⟩, 90, 15, 20, 0⟩,
        ⟨⟨"B", 10, 1, 5, 50, []⟩, 30, 5, 10, 1⟩] ∧
      ([⟨⟨"A", 10, 2, 5, 90, [.alluvial]⟩, 90, 15, 20, 0⟩,
        ⟨⟨"B", 10, 1, 5, 50, []⟩, 30, 5, 10, 1⟩] : List RankedCrop).Pairwise
        (fun a b => b.suitability < a.suitability ∨
          (a.suitability = b.suitability ∧ b.netProfit ≤ a.netProfit)) ∧
      ([⟨⟨"A", 10, 2, 5, 90, [.alluvial]⟩, 90, 15, 20, 0⟩,
        ⟨⟨"B", 10, 1, 5, 50, []⟩, 30, 5, 10, 1⟩] : List RankedCrop).Pairwise
        (fun a b => a.suitability = b.suitability →
          a.netProfit = b.netProfit → a.idx ≤ b.idx) := by
  have hw :
      rankCrops ⟨1, .alluvial, 7, .full, .manual, false, false, .standard, false, false, false⟩
          [⟨"A", 10, 2, 5, 90, [.alluvial]⟩, ⟨"B", 10, 1, 5, 50, []⟩] =
        Except.ok [⟨⟨"A", 10, 2, 5, 90, [.alluvial]⟩, 90, 15, 20, 0⟩,
          ⟨⟨"B", 10, 1, 5, 50, []⟩, 30, 5, 10, 1⟩] := by
    norm_num [rankCrops, List.enum, List.enumFrom, scoreCrop, effSuitability, netProfit,
      grossRevenue, totalCost, soilDiscount, suitIrrigationBonus, suitSoilTestBonus,
      suitDamagedSeedPenalty, suitPestPenalty, List.insertionSort, List.orderedInsert, rankLE]
    simp
  exact ⟨hw, (ranking_order _ _ _ hw).1, (ranking_order _ _ _ hw).2⟩

/-- C5: ranking against an empty catalog fails with the `EmptyCatalog`
error, and a successful ranking is never the empty sequence — the
recommended crop (the head of the ranking) exists whenever the catalog is
non-empty. -/
theorem empty_catalog_rejected (p : FarmProfile) :
    rankCrops p [] = .error .emptyCatalog ∧
      ∀ (catalog : List CropRecord) (res : List RankedCrop),
        rankCrops p catalog = .ok res → res ≠ [] := by
  constructor
  · rfl
  · intro catalog res h hnil
    cases catalog with
    | nil => simp [rankCrops] at h
    | cons c cs =>
        simp only [rankCrops, Except.ok.injEq] at h
        subst h
        have hlen := (List.perm_insertionSort rankLE
          (((c :: cs).enum).map fun ic => scoreCrop p ic.1 ic.2)).length_eq
        rw [hnil] at hlen
        simp at hlen

/-- Witness for C5: the empty catalog is rejected for a concrete profile,
and a concrete successful one-crop ranking is non-empty. -/
theorem empty_catalog_rejected_witness :
    rankCrops ⟨1, .alluvial, 7, .full, .manual, false, false, .standard, false, false, false⟩ [] =
        Except.error .emptyCatalog ∧
      ([⟨⟨"A", 10, 2, 5, 90, [.alluvial]⟩, 90, 15, 20, 0⟩] : List RankedCrop) ≠ [] := by
  have hw :
      rankCrops ⟨1, .alluvial, 7, .full, .manual, false, false, .standard, false, false, false⟩
          [⟨"A", 10, 2, 5, 90, [.alluvial]⟩] =
        Except.ok [⟨⟨"A", 10, 2, 5, 90, [.alluvial]⟩, 90, 15, 20, 0⟩] := by
    norm_num [rankCrops, List.enum, List.enumFrom, scoreCrop, effSuitability, netProfit,
      grossRevenue, totalCost, soilDiscount, suitIrrigationBonus, suitSoilTestBonus,
      suitDamagedSeedPenalty, suitPestPenalty, List.insertionSort, List.orderedInsert]
    simp
  exact ⟨(empty_catalog_rejected _).1, (empty_catalog_rejected _).2 _ _ hw⟩
